import Mathlib

/-!
Verification of the fee-ledger and enrollment core of the LMS backend.

The definitions below are a shallow embedding of the route handlers in
`admin_routes.py` and `lms_routes.py` together with the pydantic models in
`lms_models.py`.  Monetary amounts (Python floats) are modelled as exact
rationals; document ids and receipt numbers (uuid-derived strings in the
source) are passed in as explicit parameters; timestamps are modelled as a
day counter.  The Mongo collections become lists of records, `find_one`
becomes `List.find?`, `update_one` becomes an update of the first matching
element, `$addToSet` becomes an append-if-absent, and `$pull` becomes a
filter.  `HTTPException` is modelled by the `ApiError` type, with
`notFound`/`badRequest` carrying the `detail` string of the source.
-/

/-- One entry of `FeeStructure.installments` (a plain dict in the source):
`{installment_number, amount, due_date, status}` as built by
`enroll_student_with_fees` and `bulk_enroll_students`.  The due date
`utcnow() + timedelta(days=30*(i+1))` is modelled as a day offset. -/
structure Installment where
  installment_number : Nat
  amount : ℚ
  due_days : Nat
  status : String
  deriving DecidableEq

/-- `lms_models.FeeStructure` (the fields the ledger operations touch). -/
structure FeeStructure where
  id : String
  student_id : String
  course_id : String
  batch_id : String
  total_fee : ℚ
  paid_amount : ℚ
  pending_amount : ℚ
  installments : List Installment
  discount_applied : ℚ
  deriving DecidableEq

/-- `lms_models.FeePayment` (timestamps omitted). -/
structure FeePayment where
  id : String
  fee_structure_id : String
  student_id : String
  amount : ℚ
  payment_method : String
  transaction_id : Option String
  installment_number : Nat
  receipt_number : String
  notes : Option String
  deriving DecidableEq

/-- `lms_models.Batch` (the fields the enrollment operations touch). -/
structure Batch where
  id : String
  course_id : String
  batch_name : String
  teacher_id : String
  max_students : Nat
  enrolled_students : List String
  status : String
  deriving DecidableEq

/-- `lms_models.StudentProfile` (the fields the enrollment operations touch). -/
structure StudentProfile where
  user_id : String
  enrolled_courses : List String
  batch_id : Option String
  status : String
  deriving DecidableEq

/-- A row of the `users` collection (the fields `bulk_enroll_students`
reads and writes; the constant `hashed_password` and timestamps omitted). -/
structure User where
  id : String
  name : String
  email : String
  phone : String
  role : String
  deriving DecidableEq

/-- The Mongo collections owned by the ledger/enrollment core. -/
structure DB where
  users : List User
  batches : List Batch
  student_profiles : List StudentProfile
  fee_structures : List FeeStructure
  fee_payments : List FeePayment
  deriving DecidableEq

/-- `fastapi.HTTPException` as raised by the modelled handlers:
status 404 with a detail string, or status 400 with a detail string. -/
inductive ApiError where
  | notFound (detail : String)
  | badRequest (detail : String)
  deriving DecidableEq

/-- Mongo `$addToSet`: append the element unless it is already present. -/
def addToSet (xs : List String) (x : String) : List String :=
  if x ∈ xs then xs else xs ++ [x]

/-- Mongo `update_one`: apply `f` to the first element satisfying `p`,
leave everything else unchanged (no-op when nothing matches). -/
def updateFirst (p : α → Bool) (f : α → α) : List α → List α
  | [] => []
  | x :: rest => if p x then f x :: rest else x :: updateFirst p f rest

/-- The `db.batches.update_one({"id": batch_id}, {"$addToSet":
{"enrolled_students": student_id}})` call shared by all enrollment
handlers. -/
def rosterAdd (batch_id student_id : String) (batches : List Batch) : List Batch :=
  updateFirst (fun b => b.id == batch_id)
    (fun b => { b with enrolled_students := addToSet b.enrolled_students student_id })
    batches

/-- The `db.student_profiles.update_one({"user_id": student_id},
{"$set": {"batch_id": batch_id}, "$addToSet": {"enrolled_courses":
course_id}})` call of `enroll_student` / `enroll_student_in_batch`
(no upsert: a missing profile is silently left missing). -/
def profileEnroll (batch_id course_id student_id : String)
    (profiles : List StudentProfile) : List StudentProfile :=
  updateFirst (fun p => p.user_id == student_id)
    (fun p => { p with batch_id := some batch_id, enrolled_courses := addToSet p.enrolled_courses course_id })
    profiles

/-- `admin_routes.enroll_student` (POST `/batches/{batch_id}/enroll`):
look up the batch (404 if absent), reject when the roster has reached
`max_students` (400 "Batch is full"), otherwise `$addToSet` the student
into the roster and `$set`/`$addToSet` the student profile.  Note: this
handler has no already-enrolled check. -/
def enroll_student (db : DB) (batch_id student_id : String) : Except ApiError DB :=
  match db.batches.find? (fun b => b.id == batch_id) with
  | none => .error (.notFound "Batch not found")
  | some batch =>
    if batch.enrolled_students.length ≥ batch.max_students then
      .error (.badRequest "Batch is full")
    else
      let batches1 := rosterAdd batch_id student_id db.batches
      let profiles1 := profileEnroll batch_id batch.course_id student_id db.student_profiles
      .ok { db with batches := batches1, student_profiles := profiles1 }

/-- `lms_routes.enroll_student_in_batch` (POST
`/admin/batches/{batch_id}/enroll`): same steps as `enroll_student`
above (batch lookup, capacity check, roster `$addToSet`, profile
`$set`/`$addToSet`), and likewise no already-enrolled check. -/
def enroll_student_in_batch (db : DB) (batch_id student_id : String) : Except ApiError DB :=
  match db.batches.find? (fun b => b.id == batch_id) with
  | none => .error (.notFound "Batch not found")
  | some batch =>
    if batch.enrolled_students.length ≥ batch.max_students then
      .error (.badRequest "Batch is full")
    else
      let batches1 := rosterAdd batch_id student_id db.batches
      let profiles1 := profileEnroll batch_id batch.course_id student_id db.student_profiles
      .ok { db with batches := batches1, student_profiles := profiles1 }

/-- The installment list built by `enroll_student_with_fees`
(`per_installment = pending / installments`; every installment gets this
same amount, due `30*(i+1)` days out, status `"pending"`).
`bulk_enroll_students` builds the same list with the count fixed to 2.
Python float division is modelled as exact rational division (for a zero
count Python would raise `ZeroDivisionError`; the callers pass counts ≥ 1). -/
def mkInstallments (pending : ℚ) (n : Nat) (now : Nat) : List Installment :=
  (List.range n).map (fun i =>
    { installment_number := i + 1
      amount := pending / (n : ℚ)
      due_days := now + 30 * (i + 1)
      status := "pending" })

/-- The `student_profiles.update_one(..., upsert=True)` call of
`enroll_student_with_fees`: update the first profile with this `user_id`
(`$set` batch and active status, `$addToSet` the course), or insert a
fresh document built from the filter and the update operators when none
matches. -/
def upsertProfile (profiles : List StudentProfile) (student_id batch_id course_id : String) :
    List StudentProfile :=
  if profiles.any (fun p => p.user_id == student_id) then
    updateFirst (fun p => p.user_id == student_id)
      (fun p => { p with batch_id := some batch_id, status := "active", enrolled_courses := addToSet p.enrolled_courses course_id })
      profiles
  else
    profiles ++ [{ user_id := student_id, enrolled_courses := [course_id], batch_id := some batch_id, status := "active" }]

/-- `admin_routes.enroll_student_with_fees` (POST `/enroll-student`):
batch lookup (404), capacity check (400 "Batch is full"), already-enrolled
check (400 "Student already enrolled in this batch"), roster `$addToSet`,
profile upsert, and, when `total_fee > 0`, insertion of a new
`FeeStructure` with `pending = total_fee - discount`, `paid_amount = 0`
and the equal-division installment list.  `fee_id` stands for the uuid the
source generates; `now` for `datetime.utcnow()`. -/
def enroll_student_with_fees (db : DB) (batch_id student_id : String)
    (total_fee discount : ℚ) (installments : Nat) (now : Nat) (fee_id : String) :
    Except ApiError DB :=
  match db.batches.find? (fun b => b.id == batch_id) with
  | none => .error (.notFound "Batch not found")
  | some batch =>
    if batch.enrolled_students.length ≥ batch.max_students then
      .error (.badRequest "Batch is full")
    else if student_id ∈ batch.enrolled_students then
      .error (.badRequest "Student already enrolled in this batch")
    else
      let batches1 := rosterAdd batch_id student_id db.batches
      let profiles1 := upsertProfile db.student_profiles student_id batch_id batch.course_id
      let db2 : DB := { db with batches := batches1, student_profiles := profiles1 }
      if total_fee > 0 then
        let pending := total_fee - discount
        let fee : FeeStructure :=
          { id := fee_id, student_id := student_id, course_id := batch.course_id,
            batch_id := batch_id, total_fee := total_fee, paid_amount := 0,
            pending_amount := pending,
            installments := mkInstallments pending installments now,
            discount_applied := discount }
        .ok { db2 with fee_structures := db2.fee_structures ++ [fee] }
      else
        .ok db2

/-- `len([i for i in fee.installments if i.get("status") == "paid"])`. -/
def countPaidInstallments (fee : FeeStructure) : Nat :=
  (fee.installments.filter (fun i => i.status == "paid")).length

/-- `admin_routes.record_fee_payment` (POST `/fees/payment`): look up the
fee structure (404 "Fee structure not found"), append a `FeePayment`
whose `installment_number` is the count of installments already marked
paid plus one, then `$set` the structure to
`paid_amount = old_paid + amount` and
`pending_amount = max(0, old_pending - amount)`.  There is no validation
of `amount`.  `payment_id` and `receipt_number` stand for the generated
uuid and the `RCP...` string. -/
def record_fee_payment (db : DB) (fee_structure_id : String) (amount : ℚ)
    (payment_method : String) (transaction_id : Option String) (notes : Option String)
    (payment_id receipt_number : String) : Except ApiError DB :=
  match db.fee_structures.find? (fun f => f.id == fee_structure_id) with
  | none => .error (.notFound "Fee structure not found")
  | some fee =>
    let payment : FeePayment :=
      { id := payment_id, fee_structure_id := fee_structure_id,
        student_id := fee.student_id, amount := amount,
        payment_method := payment_method, transaction_id := transaction_id,
        installment_number := countPaidInstallments fee + 1,
        receipt_number := receipt_number, notes := notes }
    let new_paid := fee.paid_amount + amount
    let new_pending := fee.pending_amount - amount
    let structures1 :=
      updateFirst (fun f => f.id == fee_structure_id)
        (fun f => { f with paid_amount := new_paid, pending_amount := max 0 new_pending })
        db.fee_structures
    .ok { db with fee_payments := db.fee_payments ++ [payment], fee_structures := structures1 }

/-- `admin_routes.remove_student_from_batch` (POST
`/batches/{batch_id}/remove-student`): `$pull` the student from the
roster and `$set` the profile `batch_id` to null.  No lookups, no error
paths, touches nothing else. -/
def remove_student_from_batch (db : DB) (batch_id student_id : String) : DB :=
  let batches1 :=
    updateFirst (fun b => b.id == batch_id)
      (fun b => { b with enrolled_students := b.enrolled_students.filter (fun s => s != student_id) })
      db.batches
  let profiles1 :=
    updateFirst (fun p => p.user_id == student_id)
      (fun p => { p with batch_id := none })
      db.student_profiles
  { db with batches := batches1, student_profiles := profiles1 }

/-- One row of the `students` list taken by `bulk_enroll_students`. -/
structure BulkStudentData where
  name : String
  email : String
  phone : String
  total_fee : ℚ
  discount : ℚ
  deriving DecidableEq

/-- One entry of the `errors` list returned by `bulk_enroll_students`. -/
structure BulkError where
  row : Nat
  email : String
  error : String
  deriving DecidableEq

/-- The value returned by `bulk_enroll_students`: final state,
`enrolled_count`, and the `errors` list. -/
structure BulkResult where
  db : DB
  enrolled : Nat
  errors : List BulkError
  deriving DecidableEq

/-- The per-student loop body of `admin_routes.bulk_enroll_students`.
`snapshot` is the batch document fetched once before the loop: the
already-enrolled check reads this stale snapshot, and the fee structure
takes its `course_id` from it.  For each row: resolve the user by email
(creating a new student-role user with a fresh id when absent), skip
with an "Already enrolled" error when the student is in the snapshot
roster, otherwise `$addToSet` into the live roster and, when
`total_fee > 0`, insert a `FeeStructure` with two equal installments of
`(total_fee - discount) / 2`.  There is no capacity check and no student
profile update anywhere in this handler.  `fresh_ids` and `fee_ids`
supply the uuids the source draws, indexed by row. -/
def bulkEnrollLoop (snapshot : Batch) (batch_id : String)
    (fresh_ids fee_ids : List String) (now : Nat) :
    List BulkStudentData → Nat → DB → Nat → List BulkError → BulkResult
  | [], _, db, cnt, errs => { db := db, enrolled := cnt, errors := errs }
  | sd :: rest, idx, db, cnt, errs =>
    let resolved : DB × String :=
      match db.users.find? (fun u => u.email == sd.email) with
      | some u => (db, u.id)
      | none =>
        let sid := fresh_ids.getD idx "fresh-user-id"
        let newUser : User :=
          { id := sid, name := sd.name, email := sd.email, phone := sd.phone, role := "student" }
        ({ db with users := db.users ++ [newUser] }, sid)
    let db2 := resolved.1
    let student_id := resolved.2
    if student_id ∈ snapshot.enrolled_students then
      bulkEnrollLoop snapshot batch_id fresh_ids fee_ids now rest (idx + 1) db2 cnt
        (errs ++ [{ row := idx + 1, email := sd.email, error := "Already enrolled" }])
    else
      let db3 : DB := { db2 with batches := rosterAdd batch_id student_id db2.batches }
      let pending := sd.total_fee - sd.discount
      let newFee : FeeStructure :=
        { id := fee_ids.getD idx "fresh-fee-id",
          student_id := student_id, course_id := snapshot.course_id,
          batch_id := batch_id, total_fee := sd.total_fee, paid_amount := 0,
          pending_amount := pending,
          installments := mkInstallments pending 2 now,
          discount_applied := sd.discount }
      let db4 : DB :=
        if sd.total_fee > 0 then
          { db3 with fee_structures := db3.fee_structures ++ [newFee] }
        else db3
      bulkEnrollLoop snapshot batch_id fresh_ids fee_ids now rest (idx + 1) db4 (cnt + 1) errs

/-- `admin_routes.bulk_enroll_students` (POST `/enroll-bulk`): fetch the
batch once (404 when absent), then run the per-student loop against that
snapshot. -/
def bulk_enroll_students (db : DB) (batch_id : String) (students : List BulkStudentData)
    (fresh_ids fee_ids : List String) (now : Nat) : Except ApiError BulkResult :=
  match db.batches.find? (fun b => b.id == batch_id) with
  | none => .error (.notFound "Batch not found")
  | some batch =>
    .ok (bulkEnrollLoop batch batch_id fresh_ids fee_ids now students 0 db 0 [])

/-! ### Generic lemmas about the storage-operation helpers -/

theorem addToSet_eq_of_mem {xs : List String} {x : String} (h : x ∈ xs) :
    addToSet xs x = xs := by
  simp [addToSet, h]

theorem addToSet_eq_append {xs : List String} {x : String} (h : x ∉ xs) :
    addToSet xs x = xs ++ [x] := by
  simp [addToSet, h]

theorem addToSet_mem (xs : List String) (x : String) : x ∈ addToSet xs x := by
  unfold addToSet
  split
  · assumption
  · simp

theorem addToSet_nodup {xs : List String} (x : String) (h : xs.Nodup) :
    (addToSet xs x).Nodup := by
  unfold addToSet
  split
  · exact h
  · next hx => simp [List.nodup_append, h, hx]

theorem addToSet_length_le (xs : List String) (x : String) :
    (addToSet xs x).length ≤ xs.length + 1 := by
  unfold addToSet
  split <;> simp

theorem updateFirst_find? (p : α → Bool) (f : α → α) (hp : ∀ x, p (f x) = p x)
    (xs : List α) : (updateFirst p f xs).find? p = (xs.find? p).map f := by
  induction xs with
  | nil => rfl
  | cons x rest ih =>
    by_cases hx : p x
    · simp [updateFirst, hx, List.find?_cons_of_pos, hp]
    · simp [updateFirst, hx, List.find?_cons_of_neg, ih]

theorem updateFirst_map (p : α → Bool) (f : α → α) (g : α → β)
    (hg : ∀ x, g (f x) = g x) (xs : List α) :
    (updateFirst p f xs).map g = xs.map g := by
  induction xs with
  | nil => rfl
  | cons x rest ih =>
    by_cases hx : p x <;> simp [updateFirst, hx, hg, ih]

theorem updateFirst_forall {P : α → Prop} (p : α → Bool) (f : α → α)
    (hf : ∀ x, P x → P (f x)) (xs : List α) (h : ∀ x ∈ xs, P x) :
    ∀ x ∈ updateFirst p f xs, P x := by
  induction xs with
  | nil => simp [updateFirst]
  | cons x rest ih =>
    by_cases hx : p x
    · simp only [updateFirst, hx, if_pos]
      intro y hy
      rcases List.mem_cons.mp hy with hy | hy
      · exact hy ▸ hf x (h x (List.mem_cons_self x rest))
      · exact h y (List.mem_cons_of_mem x hy)
    · simp only [updateFirst, hx, if_neg, Bool.false_eq_true, not_false_iff]
      intro y hy
      rcases List.mem_cons.mp hy with hy | hy
      · exact hy ▸ h x (List.mem_cons_self x rest)
      · exact ih (fun z hz => h z (List.mem_cons_of_mem x hz)) y hy

theorem updateFirst_forall_of_find? {P : α → Prop} (p : α → Bool) (f : α → α)
    (xs : List α) (a : α) (hfind : xs.find? p = some a)
    (h : ∀ x ∈ xs, P x) (hfa : P (f a)) :
    ∀ x ∈ updateFirst p f xs, P x := by
  induction xs with
  | nil => simp [updateFirst]
  | cons x rest ih =>
    by_cases hx : p x
    · rw [List.find?_cons_of_pos _ hx, Option.some_inj] at hfind
      subst hfind
      simp only [updateFirst, hx, if_pos]
      intro y hy
      rcases List.mem_cons.mp hy with hy | hy
      · exact hy ▸ hfa
      · exact h y (List.mem_cons_of_mem x hy)
    · rw [List.find?_cons_of_neg _ hx] at hfind
      simp only [updateFirst, hx, if_neg, Bool.false_eq_true, not_false_iff]
      intro y hy
      rcases List.mem_cons.mp hy with hy | hy
      · exact hy ▸ h x (List.mem_cons_self x rest)
      · exact ih hfind (fun z hz => h z (List.mem_cons_of_mem x hz)) y hy

theorem updateFirst_idem (p : α → Bool) (f : α → α)
    (hp : ∀ x, p (f x) = p x) (hf : ∀ x, f (f x) = f x) (xs : List α) :
    updateFirst p f (updateFirst p f xs) = updateFirst p f xs := by
  induction xs with
  | nil => rfl
  | cons x rest ih =>
    by_cases hx : p x
    · simp [updateFirst, hx, hp, hf]
    · simp [updateFirst, hx, ih]

instance {ε α : Type} [DecidableEq ε] [DecidableEq α] : DecidableEq (Except ε α) := fun x y =>
  match x, y with
  | .error a, .error b =>
    if h : a = b then isTrue (by rw [h]) else isFalse (by simp [h])
  | .ok a, .ok b =>
    if h : a = b then isTrue (by rw [h]) else isFalse (by simp [h])
  | .error _, .ok _ => isFalse (by simp)
  | .ok _, .error _ => isFalse (by simp)

/-! ### The fee ledger: `record_fee_payment` -/

/-- The ledger arithmetic invariant of the specification:
`paid_amount + pending_amount = total_fee - discount_applied` and a
non-negative pending amount. -/
def FeeInv (f : FeeStructure) : Prop :=
  f.paid_amount + f.pending_amount = f.total_fee - f.discount_applied ∧
    0 ≤ f.pending_amount

/-- Success characterization of `record_fee_payment`: when the structure
is found, the call returns the state with the payment appended and the
structure updated from the fetched snapshot. -/
theorem record_fee_payment_eq_ok (db : DB) (fsid : String) (amount : ℚ) (pm : String)
    (tx notes : Option String) (pid rcpt : String) (fee : FeeStructure)
    (hfind : db.fee_structures.find? (fun f => f.id == fsid) = some fee) :
    record_fee_payment db fsid amount pm tx notes pid rcpt =
      .ok { db with fee_payments := db.fee_payments ++ [{ id := pid, fee_structure_id := fsid, student_id := fee.student_id, amount := amount, payment_method := pm, transaction_id := tx, installment_number := countPaidInstallments fee + 1, receipt_number := rcpt, notes := notes }], fee_structures := updateFirst (fun f => f.id == fsid) (fun f => { f with paid_amount := fee.paid_amount + amount, pending_amount := max 0 (fee.pending_amount - amount) }) db.fee_structures } := by
  unfold record_fee_payment
  rw [hfind]

/-- Claim C6: for every existing FeeStructure and every
`RecordPayment(amount)` call on it, the post-state satisfies
`paid_amount = old paid_amount + amount` and
`pending_amount = max(0, old pending_amount - amount)`: overpayment is
clamped to zero pending, not rejected (the call succeeds for any amount,
as witnessed by the universally quantified `amount`). -/
theorem recordPayment_updates_amounts (db : DB) (fsid : String) (amount : ℚ)
    (pm : String) (tx notes : Option String) (pid rcpt : String) (fee : FeeStructure)
    (db2 : DB)
    (hfind : db.fee_structures.find? (fun f => f.id == fsid) = some fee)
    (hok : record_fee_payment db fsid amount pm tx notes pid rcpt = .ok db2) :
    db2.fee_structures.find? (fun f => f.id == fsid) =
      some { fee with paid_amount := fee.paid_amount + amount, pending_amount := max 0 (fee.pending_amount - amount) } := by
  rw [record_fee_payment_eq_ok db fsid amount pm tx notes pid rcpt fee hfind] at hok
  simp only [Except.ok.injEq] at hok
  subst hok
  have h := updateFirst_find? (fun f : FeeStructure => f.id == fsid)
    (fun f => { f with paid_amount := fee.paid_amount + amount, pending_amount := max 0 (fee.pending_amount - amount) })
    (fun x => rfl) db.fee_structures
  rw [hfind] at h
  exact h

/-- Concrete instance of `recordPayment_updates_amounts`. -/
def feeW6 : FeeStructure :=
  { id := "fs1", student_id := "s1", course_id := "c1", batch_id := "b1",
    total_fee := 100, paid_amount := 0, pending_amount := 100,
    installments := [], discount_applied := 0 }

/-- The database for the C6 witness: one fee structure, nothing else. -/
def dbW6 : DB :=
  { users := [], batches := [], student_profiles := [],
    fee_structures := [feeW6], fee_payments := [] }

/-- The state produced by paying 30 against `feeW6` in `dbW6`. -/
def dbW6after : DB :=
  { users := [], batches := [], student_profiles := [],
    fee_structures := [{ feeW6 with paid_amount := feeW6.paid_amount + 30, pending_amount := max 0 (feeW6.pending_amount - 30) }],
    fee_payments := [{ id := "p1", fee_structure_id := "fs1", student_id := "s1", amount := 30, payment_method := "cash", transaction_id := none, installment_number := 1, receipt_number := "r1", notes := none }] }

theorem recordPayment_updates_amounts_witness :
    dbW6after.fee_structures.find? (fun f => f.id == "fs1") =
      some { feeW6 with paid_amount := feeW6.paid_amount + 30, pending_amount := max 0 (feeW6.pending_amount - 30) } :=
  recordPayment_updates_amounts dbW6 "fs1" 30 "cash" none none "p1" "r1" feeW6
    dbW6after (by decide) (by rfl)

/-- Claim C9: `RecordPayment` never modifies the installments list of any
fee structure (in particular no installment status is flipped to
`"paid"`), and the appended `FeePayment` record carries
`installment_number = (count of installments whose status is "paid") + 1`,
a label only. -/
theorem recordPayment_installments_frame (db : DB) (fsid : String) (amount : ℚ)
    (pm : String) (tx notes : Option String) (pid rcpt : String) (fee : FeeStructure)
    (db2 : DB)
    (hfind : db.fee_structures.find? (fun f => f.id == fsid) = some fee)
    (hok : record_fee_payment db fsid amount pm tx notes pid rcpt = .ok db2) :
    db2.fee_structures.map (fun f => f.installments) =
      db.fee_structures.map (fun f => f.installments) ∧
    db2.fee_payments = db.fee_payments ++ [{ id := pid, fee_structure_id := fsid, student_id := fee.student_id, amount := amount, payment_method := pm, transaction_id := tx, installment_number := countPaidInstallments fee + 1, receipt_number := rcpt, notes := notes }] := by
  rw [record_fee_payment_eq_ok db fsid amount pm tx notes pid rcpt fee hfind] at hok
  simp only [Except.ok.injEq] at hok
  subst hok
  refine ⟨?_, rfl⟩
  exact updateFirst_map (fun f : FeeStructure => f.id == fsid)
    (fun f => { f with paid_amount := fee.paid_amount + amount, pending_amount := max 0 (fee.pending_amount - amount) })
    (fun f => f.installments) (fun x => rfl) db.fee_structures

/-- Concrete fee structure with one paid and one pending installment,
for the C9 witness. -/
def feeW9 : FeeStructure :=
  { id := "fs9", student_id := "s9", course_id := "c9", batch_id := "b9",
    total_fee := 200, paid_amount := 100, pending_amount := 100,
    installments := [{ installment_number := 1, amount := 100, due_days := 30, status := "paid" }, { installment_number := 2, amount := 100, due_days := 60, status := "pending" }],
    discount_applied := 0 }

/-- The database for the C9 witness. -/
def dbW9 : DB :=
  { users := [], batches := [], student_profiles := [],
    fee_structures := [feeW9], fee_payments := [] }

/-- The state produced by paying 100 against `feeW9` in `dbW9`. -/
def dbW9after : DB :=
  { users := [], batches := [], student_profiles := [],
    fee_structures := [{ feeW9 with paid_amount := feeW9.paid_amount + 100, pending_amount := max 0 (feeW9.pending_amount - 100) }],
    fee_payments := [{ id := "p9", fee_structure_id := "fs9", student_id := "s9", amount := 100, payment_method := "upi", transaction_id := some "t9", installment_number := 2, receipt_number := "r9", notes := none }] }

theorem recordPayment_installments_frame_witness :
    dbW9after.fee_structures.map (fun f => f.installments) =
      dbW9.fee_structures.map (fun f => f.installments) ∧
    dbW9after.fee_payments = dbW9.fee_payments ++ [{ id := "p9", fee_structure_id := "fs9", student_id := feeW9.student_id, amount := 100, payment_method := "upi", transaction_id := some "t9", installment_number := countPaidInstallments feeW9 + 1, receipt_number := "r9", notes := none }] :=
  recordPayment_installments_frame dbW9 "fs9" 100 "upi" (some "t9") none "p9" "r9"
    feeW9 dbW9after (by decide) (by rfl)

/-- Fee structure for the C7 counterexample. -/
def feeX7 : FeeStructure :=
  { id := "fs1", student_id := "s1", course_id := "c1", batch_id := "b1",
    total_fee := 100, paid_amount := 0, pending_amount := 100,
    installments := [], discount_applied := 0 }

/-- Database for the C7 counterexample: one fee structure, no payments. -/
def dbX7 : DB :=
  { users := [], batches := [], student_profiles := [],
    fee_structures := [feeX7], fee_payments := [] }

/-- Claim C7 counterexample: `RecordPayment` with the non-positive amount
-5 on an existing structure does NOT fail with InvalidAmount: it
succeeds, appends a FeePayment, and modifies the structure
(`paid_amount` becomes -5, `pending_amount` becomes 105).  The source has
no validation of `amount` at all. -/
theorem recordPayment_accepts_nonpositive_cex :
    (record_fee_payment dbX7 "fs1" (-5) "cash" none none "p1" "r1").map
        (fun d => (d.fee_payments.length, d.fee_structures.map (fun f => (f.paid_amount, f.pending_amount)))) =
      .ok (1, [(-5, 105)]) := by
  rw [record_fee_payment_eq_ok dbX7 "fs1" (-5) "cash" none none "p1" "r1" feeX7 (by rfl)]
  show Except.ok (1, [(feeX7.paid_amount + (-5), max 0 (feeX7.pending_amount - (-5)))]) = _
  norm_num [feeX7]

/-- Claim C7 (amended): `RecordPayment` fails with `NotFound` when the
referenced fee structure does not exist (the handler raises before any
write, so nothing is appended or modified); but it performs NO amount
validation: for an existing structure the call succeeds and appends a
FeePayment for every amount, including non-positive ones. -/
theorem recordPayment_notfound_no_amount_validation (db : DB) (fsid : String)
    (amount : ℚ) (pm : String) (tx notes : Option String) (pid rcpt : String) :
    (db.fee_structures.find? (fun f => f.id == fsid) = none →
      record_fee_payment db fsid amount pm tx notes pid rcpt =
        .error (.notFound "Fee structure not found")) ∧
    (∀ fee, db.fee_structures.find? (fun f => f.id == fsid) = some fee →
      ∃ db2, record_fee_payment db fsid amount pm tx notes pid rcpt = .ok db2 ∧
        db2.fee_payments = db.fee_payments ++ [{ id := pid, fee_structure_id := fsid, student_id := fee.student_id, amount := amount, payment_method := pm, transaction_id := tx, installment_number := countPaidInstallments fee + 1, receipt_number := rcpt, notes := notes }]) := by
  constructor
  · intro hnone
    unfold record_fee_payment
    rw [hnone]
  · intro fee hfind
    exact ⟨_, record_fee_payment_eq_ok db fsid amount pm tx notes pid rcpt fee hfind, rfl⟩

/-- Database for the C7 witness: no fee structures at all. -/
def dbW7 : DB :=
  { users := [], batches := [], student_profiles := [],
    fee_structures := [], fee_payments := [] }

theorem recordPayment_notfound_no_amount_validation_witness :
    record_fee_payment dbW7 "fs-missing" 10 "cash" none none "p1" "r1" =
      .error (.notFound "Fee structure not found") :=
  (recordPayment_notfound_no_amount_validation dbW7 "fs-missing" 10 "cash" none none "p1" "r1").1
    (by decide)

/-- Fee structure for the C1 counterexample. -/
def feeX1 : FeeStructure :=
  { id := "fs1", student_id := "s1", course_id := "c1", batch_id := "b1",
    total_fee := 100, paid_amount := 0, pending_amount := 100,
    installments := [], discount_applied := 0 }

/-- Database for the C1 counterexample. -/
def dbX1 : DB :=
  { users := [], batches := [], student_profiles := [],
    fee_structures := [feeX1], fee_payments := [] }

/-- Claim C1 counterexample: starting from a structure with
`total_fee = 100`, `discount = 0`, `paid = 0`, `pending = 100` (which
satisfies the equation), the single `RecordPayment(150)` call produces
`paid = 150`, `pending = 0`, and `150 + 0 = 100 - 0` is false: the
clamping of `pending_amount` at zero breaks
`paid + pending = total - discount` on overpayment. -/
theorem ledger_equation_cex :
    (record_fee_payment dbX1 "fs1" 150 "cash" none none "p1" "r1").map
        (fun d => d.fee_structures.map (fun f => (f.paid_amount, f.pending_amount, f.total_fee, f.discount_applied))) =
      .ok [(150, 0, 100, 0)] ∧ ¬ ((150 : ℚ) + 0 = 100 - 0) := by
  constructor
  · rw [record_fee_payment_eq_ok dbX1 "fs1" 150 "cash" none none "p1" "r1" feeX1 (by rfl)]
    show Except.ok [(feeX1.paid_amount + 150, max 0 (feeX1.pending_amount - 150), feeX1.total_fee, feeX1.discount_applied)] = _
    rw [show max 0 (feeX1.pending_amount - 150) = 0 from max_eq_left (by norm_num [feeX1])]
    norm_num [feeX1]
  · norm_num

/-- Claim C1 (amended): after any `RecordPayment` call the paid
structure's `pending_amount` is non-negative (unconditionally, thanks to
the clamp); and as long as each call's `amount` does not exceed the
structure's current `pending_amount` (no clamping triggered), the
equation `paid_amount + pending_amount = total_fee - discount_applied`
is preserved for every structure in the store — hence it holds after
each call of any such sequence. -/
theorem recordPayment_ledger_invariant (db : DB) (fsid : String) (amount : ℚ)
    (pm : String) (tx notes : Option String) (pid rcpt : String) (fee : FeeStructure)
    (db2 : DB)
    (hfind : db.fee_structures.find? (fun f => f.id == fsid) = some fee)
    (hok : record_fee_payment db fsid amount pm tx notes pid rcpt = .ok db2) :
    (∀ f2, db2.fee_structures.find? (fun f => f.id == fsid) = some f2 →
        0 ≤ f2.pending_amount) ∧
    (amount ≤ fee.pending_amount → (∀ f ∈ db.fee_structures, FeeInv f) →
      ∀ f ∈ db2.fee_structures, FeeInv f) := by
  rw [record_fee_payment_eq_ok db fsid amount pm tx notes pid rcpt fee hfind] at hok
  simp only [Except.ok.injEq] at hok
  subst hok
  constructor
  · intro f2 hf2
    have h := updateFirst_find? (fun f : FeeStructure => f.id == fsid)
      (fun f => { f with paid_amount := fee.paid_amount + amount, pending_amount := max 0 (fee.pending_amount - amount) })
      (fun x => rfl) db.fee_structures
    have hf2x : List.find? (fun f => f.id == fsid) (updateFirst (fun f : FeeStructure => f.id == fsid) (fun f => { f with paid_amount := fee.paid_amount + amount, pending_amount := max 0 (fee.pending_amount - amount) }) db.fee_structures) = some f2 := hf2
    rw [h, hfind] at hf2x
    simp only [Option.map_some', Option.some_inj] at hf2x
    rw [← hf2x]
    exact le_max_left _ _
  · intro hle hinv
    have hmem := List.mem_of_find?_eq_some hfind
    have hfa : FeeInv { fee with paid_amount := fee.paid_amount + amount, pending_amount := max 0 (fee.pending_amount - amount) } := by
      refine ⟨?_, le_max_left _ _⟩
      show fee.paid_amount + amount + max 0 (fee.pending_amount - amount) =
        fee.total_fee - fee.discount_applied
      have hmax : max 0 (fee.pending_amount - amount) = fee.pending_amount - amount :=
        max_eq_right (by linarith)
      have heq := (hinv fee hmem).1
      rw [hmax]
      linarith [heq]
    intro f hf
    exact updateFirst_forall_of_find? (fun f : FeeStructure => f.id == fsid)
      (fun f => { f with paid_amount := fee.paid_amount + amount, pending_amount := max 0 (fee.pending_amount - amount) })
      db.fee_structures fee hfind hinv hfa f hf

/-! ### The enrollment manager -/

theorem updateFirst_eq_self_of_find? (p : α → Bool) (f : α → α) (xs : List α) (a : α)
    (hfind : xs.find? p = some a) (hfa : f a = a) : updateFirst p f xs = xs := by
  induction xs with
  | nil => rfl
  | cons x rest ih =>
    by_cases hx : p x
    · rw [List.find?_cons_of_pos _ hx, Option.some_inj] at hfind
      subst hfind
      simp [updateFirst, hx, hfa]
    · rw [List.find?_cons_of_neg _ hx] at hfind
      simp [updateFirst, hx, ih hfind]

theorem find?_append_of_none (p : α → Bool) (xs ys : List α)
    (h : xs.find? p = none) : (xs ++ ys).find? p = ys.find? p := by
  induction xs with
  | nil => rfl
  | cons x rest ih =>
    by_cases hx : p x
    · rw [List.find?_cons_of_pos _ hx] at h
      exact absurd h (by simp)
    · rw [List.find?_cons_of_neg _ hx] at h
      rw [List.cons_append, List.find?_cons_of_neg _ hx]
      exact ih h

/-- `enroll_student_in_batch` (lms_routes.py) is line-for-line the same
handler as `enroll_student` (admin_routes.py). -/
theorem enroll_student_in_batch_eq : enroll_student_in_batch = enroll_student := rfl

/-- Inversion of a successful `enroll_student` call: the batch was found
with spare capacity, and the result is exactly the roster add plus the
profile update. -/
theorem enroll_student_ok_inv (db : DB) (bid sid : String) (db1 : DB)
    (hok : enroll_student db bid sid = .ok db1) :
    ∃ b, db.batches.find? (fun x => x.id == bid) = some b ∧
      b.enrolled_students.length < b.max_students ∧
      db1 = { db with batches := rosterAdd bid sid db.batches, student_profiles := profileEnroll bid b.course_id sid db.student_profiles } := by
  unfold enroll_student at hok
  cases hfind : db.batches.find? (fun x => x.id == bid) with
  | none => rw [hfind] at hok; exact absurd hok (by simp)
  | some b =>
    rw [hfind] at hok
    dsimp only at hok
    by_cases hcap : b.enrolled_students.length ≥ b.max_students
    · rw [if_pos hcap] at hok
      exact absurd hok (by simp)
    · rw [if_neg hcap] at hok
      simp only [Except.ok.injEq] at hok
      exact ⟨b, rfl, Nat.not_le.mp hcap, hok.symm⟩

/-- Inversion of a successful `enroll_student_with_fees` call. -/
theorem enroll_with_fees_ok_inv (db : DB) (bid sid : String) (tf d : ℚ)
    (n now : Nat) (fid : String) (db1 : DB)
    (hok : enroll_student_with_fees db bid sid tf d n now fid = .ok db1) :
    ∃ b, db.batches.find? (fun x => x.id == bid) = some b ∧
      b.enrolled_students.length < b.max_students ∧
      sid ∉ b.enrolled_students ∧
      db1.batches = rosterAdd bid sid db.batches ∧
      db1.student_profiles = upsertProfile db.student_profiles sid bid b.course_id ∧
      db1.users = db.users ∧ db1.fee_payments = db.fee_payments := by
  unfold enroll_student_with_fees at hok
  cases hfind : db.batches.find? (fun x => x.id == bid) with
  | none => rw [hfind] at hok; exact absurd hok (by simp)
  | some b =>
    rw [hfind] at hok
    dsimp only at hok
    by_cases hcap : b.enrolled_students.length ≥ b.max_students
    · rw [if_pos hcap] at hok
      exact absurd hok (by simp)
    · rw [if_neg hcap] at hok
      by_cases hmem : sid ∈ b.enrolled_students
      · rw [if_pos hmem] at hok
        exact absurd hok (by simp)
      · rw [if_neg hmem] at hok
        by_cases htf : tf > 0
        · rw [if_pos htf] at hok
          simp only [Except.ok.injEq] at hok
          subst hok
          exact ⟨b, rfl, Nat.not_le.mp hcap, hmem, rfl, rfl, rfl, rfl⟩
        · rw [if_neg htf] at hok
          simp only [Except.ok.injEq] at hok
          subst hok
          exact ⟨b, rfl, Nat.not_le.mp hcap, hmem, rfl, rfl, rfl, rfl⟩

/-- Claim C5: enrolling into a batch whose roster has reached
`max_students` fails with the capacity error (HTTP 400 "Batch is full",
the modelled `CapacityExceeded`) on all three enrollment handlers, and
since the handlers raise before performing any write, the roster is left
unchanged.  No membership hypothesis is needed: the capacity check comes
first in the source, so a full batch yields the capacity error even when
the student is already in the roster (the witness instantiates exactly
that situation). -/
theorem enroll_capacity_exceeded (db : DB) (bid sid : String) (b : Batch)
    (hfind : db.batches.find? (fun x => x.id == bid) = some b)
    (hfull : b.max_students ≤ b.enrolled_students.length) :
    enroll_student db bid sid = .error (.badRequest "Batch is full") ∧
    enroll_student_in_batch db bid sid = .error (.badRequest "Batch is full") ∧
    ∀ tf d n now fid, enroll_student_with_fees db bid sid tf d n now fid =
      .error (.badRequest "Batch is full") := by
  refine ⟨?_, ?_, ?_⟩
  · unfold enroll_student
    rw [hfind]
    dsimp only
    rw [if_pos hfull]
  · unfold enroll_student_in_batch
    rw [hfind]
    dsimp only
    rw [if_pos hfull]
  · intro tf d n now fid
    unfold enroll_student_with_fees
    rw [hfind]
    dsimp only
    rw [if_pos hfull]

/-- Batch for the C5 witness: full (capacity 1) and already containing
the very student we try to enroll. -/
def batchW5 : Batch :=
  { id := "b1", course_id := "c1", batch_name := "Morning", teacher_id := "t1",
    max_students := 1, enrolled_students := ["s1"], status := "ongoing" }

/-- Database for the C5 witness. -/
def dbW5 : DB :=
  { users := [], batches := [batchW5], student_profiles := [],
    fee_structures := [], fee_payments := [] }

theorem enroll_capacity_exceeded_witness :
    enroll_student dbW5 "b1" "s1" = .error (.badRequest "Batch is full") :=
  (enroll_capacity_exceeded dbW5 "b1" "s1" batchW5 (by decide) (by decide)).1

/-- Batch for the C4 counterexample: plenty of spare capacity. -/
def batchX4 : Batch :=
  { id := "b1", course_id := "c1", batch_name := "Evening", teacher_id := "t1",
    max_students := 30, enrolled_students := [], status := "ongoing" }

/-- Database for the C4 counterexample: the batch and a profile for the
student. -/
def dbX4 : DB :=
  { users := [], batches := [batchX4],
    student_profiles := [{ user_id := "s1", enrolled_courses := [], batch_id := none, status := "active" }],
    fee_structures := [], fee_payments := [] }

/-- Claim C4 counterexample: on the `enroll_student` handler
(`/batches/{batch_id}/enroll`), a successful enroll of `s1` into a batch
with spare capacity followed by a second identical call does NOT fail:
the composition returns `.ok` (so the second call raised no
`AlreadyEnrolled` error — the handler has no already-enrolled check),
with the roster showing `s1` once (the `$addToSet` is a no-op). -/
theorem enroll_twice_no_error_cex :
    ((enroll_student dbX4 "b1" "s1").bind (fun d => enroll_student d "b1" "s1")).map
      (fun d => d.batches.map (fun b => b.enrolled_students)) = .ok [["s1"]] := by
  decide

/-- Claim C4 (amended): the behaviour of "enroll twice" depends on the
handler.  (1) On `enroll_student_with_fees` (`/enroll-student`), after a
successful call, a second call for the same (batch, student) fails with
the already-enrolled error — provided the batch is still below capacity
after the first call (otherwise the capacity check, which comes first,
fires instead).  (2) On `enroll_student` (`/batches/{batch_id}/enroll`),
the second call succeeds with no error, but leaves the roster collection
unchanged, because `$addToSet` is set-semantic.  (3) The same holds for
`enroll_student_in_batch`, which is the identical handler.  (4) On every
path, a successful enroll of a student not yet in the roster appends the
student once, so the roster grows by exactly 1 across the two calls, not
2. -/
theorem enroll_twice_amended :
    (∀ db bid sid tf d n now fid db1 b1 tf2 d2 n2 now2 fid2,
      enroll_student_with_fees db bid sid tf d n now fid = .ok db1 →
      db1.batches.find? (fun x => x.id == bid) = some b1 →
      b1.enrolled_students.length < b1.max_students →
      enroll_student_with_fees db1 bid sid tf2 d2 n2 now2 fid2 =
        .error (.badRequest "Student already enrolled in this batch")) ∧
    (∀ db bid sid db1 b1,
      enroll_student db bid sid = .ok db1 →
      db1.batches.find? (fun x => x.id == bid) = some b1 →
      b1.enrolled_students.length < b1.max_students →
      ∃ db2, enroll_student db1 bid sid = .ok db2 ∧ db2.batches = db1.batches) ∧
    (∀ db bid sid db1 b1,
      enroll_student_in_batch db bid sid = .ok db1 →
      db1.batches.find? (fun x => x.id == bid) = some b1 →
      b1.enrolled_students.length < b1.max_students →
      ∃ db2, enroll_student_in_batch db1 bid sid = .ok db2 ∧ db2.batches = db1.batches) ∧
    (∀ db bid sid b db1,
      db.batches.find? (fun x => x.id == bid) = some b →
      sid ∉ b.enrolled_students →
      enroll_student db bid sid = .ok db1 →
      db1.batches.find? (fun x => x.id == bid) =
        some { b with enrolled_students := b.enrolled_students ++ [sid] }) := by
  have rosterFind : ∀ (db1 : DB) (bid sid : String) (b : Batch),
      db1.batches.find? (fun x => x.id == bid) = some b →
      (rosterAdd bid sid db1.batches).find? (fun x => x.id == bid) =
        some { b with enrolled_students := addToSet b.enrolled_students sid } := by
    intro db1 bid sid b hfind
    unfold rosterAdd
    rw [updateFirst_find? (fun x : Batch => x.id == bid)
      (fun b => { b with enrolled_students := addToSet b.enrolled_students sid })
      (fun x => rfl) db1.batches, hfind]
    rfl
  have part2 : ∀ db bid sid db1 b1,
      enroll_student db bid sid = .ok db1 →
      db1.batches.find? (fun x => x.id == bid) = some b1 →
      b1.enrolled_students.length < b1.max_students →
      ∃ db2, enroll_student db1 bid sid = .ok db2 ∧ db2.batches = db1.batches := by
    intro db bid sid db1 b1 hok hfind1 hcap1
    obtain ⟨b, hfind, hcap, hdb1⟩ := enroll_student_ok_inv db bid sid db1 hok
    have hbatches : db1.batches = rosterAdd bid sid db.batches := by rw [hdb1]
    have hup := rosterFind db bid sid b hfind
    rw [← hbatches, hfind1, Option.some_inj] at hup
    have hsidmem : sid ∈ b1.enrolled_students := by
      rw [hup]
      exact addToSet_mem _ _
    refine ⟨{ db1 with batches := rosterAdd bid sid db1.batches, student_profiles := profileEnroll bid b1.course_id sid db1.student_profiles }, ?_, ?_⟩
    · unfold enroll_student
      rw [hfind1]
      dsimp only
      rw [if_neg (Nat.not_le.mpr hcap1)]
    · show rosterAdd bid sid db1.batches = db1.batches
      refine updateFirst_eq_self_of_find? _ _ _ b1 hfind1 ?_
      rw [addToSet_eq_of_mem hsidmem]
  refine ⟨?_, part2, ?_, ?_⟩
  · intro db bid sid tf d n now fid db1 b1 tf2 d2 n2 now2 fid2 hok hfind1 hcap1
    obtain ⟨b, hfind, hcap, hmem, hbatches, _, _, _⟩ :=
      enroll_with_fees_ok_inv db bid sid tf d n now fid db1 hok
    have hup := rosterFind db bid sid b hfind
    rw [← hbatches, hfind1, Option.some_inj] at hup
    have hsidmem : sid ∈ b1.enrolled_students := by
      rw [hup]
      exact addToSet_mem _ _
    unfold enroll_student_with_fees
    rw [hfind1]
    dsimp only
    rw [if_neg (Nat.not_le.mpr hcap1), if_pos hsidmem]
  · intro db bid sid db1 b1 hok hfind1 hcap1
    rw [enroll_student_in_batch_eq] at hok ⊢
    exact part2 db bid sid db1 b1 hok hfind1 hcap1
  · intro db bid sid b db1 hfind hnmem hok
    obtain ⟨bx, hfindx, hcapx, hdb1⟩ := enroll_student_ok_inv db bid sid db1 hok
    have hbatches : db1.batches = rosterAdd bid sid db.batches := by rw [hdb1]
    have hup := rosterFind db bid sid b hfind
    rw [← hbatches] at hup
    rw [hup, addToSet_eq_append hnmem]

/-- Batch for the C4 witness. -/
def batchW4 : Batch :=
  { id := "b1", course_id := "c1", batch_name := "Evening", teacher_id := "t1",
    max_students := 3, enrolled_students := [], status := "ongoing" }

/-- Database for the C4 witness. -/
def dbW4 : DB :=
  { users := [], batches := [batchW4], student_profiles := [],
    fee_structures := [], fee_payments := [] }

/-- State after the first successful `enroll_student_with_fees` call of
the C4 witness (zero fee, so no structure created; profile upserted). -/
def dbW4after : DB :=
  { users := [],
    batches := [{ batchW4 with enrolled_students := ["s1"] }],
    student_profiles := [{ user_id := "s1", enrolled_courses := ["c1"], batch_id := some "b1", status := "active" }],
    fee_structures := [], fee_payments := [] }

theorem enroll_twice_amended_witness :
    enroll_student_with_fees dbW4after "b1" "s1" 0 0 2 0 "f2" =
      .error (.badRequest "Student already enrolled in this batch") :=
  enroll_twice_amended.1 dbW4 "b1" "s1" 0 0 2 0 "f1" dbW4after
    { batchW4 with enrolled_students := ["s1"] } 0 0 2 0 "f2"
    (by rfl) (by decide) (by decide)

theorem rosterAdd_find? (bid sid : String) (bs : List Batch) (b : Batch)
    (hfind : bs.find? (fun x => x.id == bid) = some b) :
    (rosterAdd bid sid bs).find? (fun x => x.id == bid) =
      some { b with enrolled_students := addToSet b.enrolled_students sid } := by
  unfold rosterAdd
  rw [updateFirst_find? (fun x : Batch => x.id == bid)
    (fun b => { b with enrolled_students := addToSet b.enrolled_students sid })
    (fun x => rfl) bs, hfind]
  rfl

theorem profileEnroll_find? (bid cid sid : String) (ps : List StudentProfile) :
    (profileEnroll bid cid sid ps).find? (fun x => x.user_id == sid) =
      (ps.find? (fun x => x.user_id == sid)).map
        (fun p => { p with batch_id := some bid, enrolled_courses := addToSet p.enrolled_courses cid }) := by
  unfold profileEnroll
  exact updateFirst_find? (fun x : StudentProfile => x.user_id == sid)
    (fun p => { p with batch_id := some bid, enrolled_courses := addToSet p.enrolled_courses cid })
    (fun x => rfl) ps

theorem upsertProfile_find? (ps : List StudentProfile) (sid bid cid : String) :
    (upsertProfile ps sid bid cid).find? (fun x => x.user_id == sid) =
      (match ps.find? (fun x => x.user_id == sid) with
        | some p => some { p with batch_id := some bid, status := "active", enrolled_courses := addToSet p.enrolled_courses cid }
        | none => some { user_id := sid, enrolled_courses := [cid], batch_id := some bid, status := "active" }) := by
  unfold upsertProfile
  by_cases hany : ps.any (fun p => p.user_id == sid) = true
  · rw [if_pos hany]
    rw [updateFirst_find? (fun x : StudentProfile => x.user_id == sid)
      (fun p => { p with batch_id := some bid, status := "active", enrolled_courses := addToSet p.enrolled_courses cid })
      (fun x => rfl) ps]
    cases hf : ps.find? (fun x => x.user_id == sid) with
    | some p => rfl
    | none =>
      rw [List.find?_eq_none] at hf
      rw [List.any_eq_true] at hany
      obtain ⟨x, hx, hpx⟩ := hany
      exact absurd hpx (by simpa using hf x hx)
  · rw [if_neg hany]
    have hnone : ps.find? (fun x => x.user_id == sid) = none := by
      rw [List.find?_eq_none]
      intro x hx hpx
      exact hany (List.any_eq_true.mpr ⟨x, hx, hpx⟩)
    rw [find?_append_of_none _ _ _ hnone, hnone]
    simp

/-- The bulk-enroll loop never touches the `student_profiles` collection
(there is no profile update anywhere in `bulk_enroll_students`). -/
theorem bulkEnrollLoop_profiles (snapshot : Batch) (bid : String)
    (fids feeids : List String) (now : Nat) :
    ∀ (students : List BulkStudentData) (idx : Nat) (db : DB) (cnt : Nat)
      (errs : List BulkError),
      (bulkEnrollLoop snapshot bid fids feeids now students idx db cnt errs).db.student_profiles =
        db.student_profiles := by
  intro students
  induction students with
  | nil => intro idx db cnt errs; rfl
  | cons sd rest ih =>
    intro idx db cnt errs
    unfold bulkEnrollLoop
    cases hu : db.users.find? (fun u => u.email == sd.email) with
    | some u =>
      dsimp only
      by_cases hm : u.id ∈ snapshot.enrolled_students
      · rw [if_pos hm]
        exact ih _ _ _ _
      · rw [if_neg hm]
        by_cases htf : sd.total_fee > 0
        · rw [if_pos htf]
          exact ih _ _ _ _
        · rw [if_neg htf]
          exact ih _ _ _ _
    | none =>
      dsimp only
      by_cases hm : fids.getD idx "fresh-user-id" ∈ snapshot.enrolled_students
      · rw [if_pos hm]
        exact ih _ _ _ _
      · rw [if_neg hm]
        by_cases htf : sd.total_fee > 0
        · rw [if_pos htf]
          exact ih _ _ _ _
        · rw [if_neg htf]
          exact ih _ _ _ _

/-- Inversion of a successful `bulk_enroll_students` call. -/
theorem bulk_enroll_ok_inv (db : DB) (bid : String) (students : List BulkStudentData)
    (fids feeids : List String) (now : Nat) (r : BulkResult)
    (hok : bulk_enroll_students db bid students fids feeids now = .ok r) :
    ∃ b, db.batches.find? (fun x => x.id == bid) = some b ∧
      r = bulkEnrollLoop b bid fids feeids now students 0 db 0 [] := by
  unfold bulk_enroll_students at hok
  cases hfind : db.batches.find? (fun x => x.id == bid) with
  | none => rw [hfind] at hok; exact absurd hok (by simp)
  | some b =>
    rw [hfind] at hok
    dsimp only at hok
    simp only [Except.ok.injEq] at hok
    exact ⟨b, rfl, hok.symm⟩

/-- Database for the C8 counterexample: an existing student user with a
profile, and a batch with room. -/
def dbX8 : DB :=
  { users := [{ id := "s1", name := "Alice", email := "e1", phone := "", role := "student" }],
    batches := [{ id := "b1", course_id := "c1", batch_name := "Evening", teacher_id := "t1", max_students := 30, enrolled_students := [], status := "ongoing" }],
    student_profiles := [{ user_id := "s1", enrolled_courses := [], batch_id := none, status := "active" }],
    fee_structures := [], fee_payments := [] }

/-- The row bulk-enrolling the existing student of `dbX8`. -/
def sdX8 : BulkStudentData :=
  { name := "Alice", email := "e1", phone := "", total_fee := 0, discount := 0 }

/-- Claim C8 counterexample: `bulk_enroll_students` successfully enrolls
the student into the batch roster, but the student profile is untouched:
`batch_id` stays `none` (not this batch) and `enrolled_courses` stays
empty (the batch's course id is not added).  The three effects do NOT
hold as one unit on the bulk path. -/
theorem bulk_enroll_no_profile_update_cex :
    (bulk_enroll_students dbX8 "b1" [sdX8] [] [] 0).map
      (fun r => (r.db.batches.map (fun b => b.enrolled_students),
        r.db.student_profiles.map (fun p => (p.user_id, p.batch_id, p.enrolled_courses)))) =
      .ok ([["s1"]], [("s1", none, [])]) := by
  decide

/-- Claim C8 (amended): the three enrollment effects (student in roster,
profile `batch_id` set to this batch, batch's course added to the
profile's enrolled-courses with set semantics) hold on the single-enroll
paths — on `enroll_student` provided a profile document exists (the
update is not an upsert), and on `enroll_student_with_fees`
unconditionally (its update is an upsert, creating the profile if
missing).  On the bulk path they do NOT: `bulk_enroll_students` leaves
the `student_profiles` collection entirely unchanged. -/
theorem enroll_effects_amended :
    (∀ db bid sid db1 b p0,
      enroll_student db bid sid = .ok db1 →
      db.batches.find? (fun x => x.id == bid) = some b →
      db.student_profiles.find? (fun x => x.user_id == sid) = some p0 →
      (∀ b1, db1.batches.find? (fun x => x.id == bid) = some b1 →
        sid ∈ b1.enrolled_students) ∧
      (∀ p1, db1.student_profiles.find? (fun x => x.user_id == sid) = some p1 →
        p1.batch_id = some bid ∧ b.course_id ∈ p1.enrolled_courses ∧
        (p0.enrolled_courses.Nodup → p1.enrolled_courses.Nodup))) ∧
    (∀ db bid sid tf d n now fid db1 b,
      enroll_student_with_fees db bid sid tf d n now fid = .ok db1 →
      db.batches.find? (fun x => x.id == bid) = some b →
      (∀ b1, db1.batches.find? (fun x => x.id == bid) = some b1 →
        sid ∈ b1.enrolled_students) ∧
      (∃ p1, db1.student_profiles.find? (fun x => x.user_id == sid) = some p1) ∧
      (∀ p1, db1.student_profiles.find? (fun x => x.user_id == sid) = some p1 →
        p1.batch_id = some bid ∧ b.course_id ∈ p1.enrolled_courses)) ∧
    (∀ db bid students fids feeids now r,
      bulk_enroll_students db bid students fids feeids now = .ok r →
      r.db.student_profiles = db.student_profiles) := by
  refine ⟨?_, ?_, ?_⟩
  · intro db bid sid db1 b p0 hok hfind hfindp
    obtain ⟨b', hfind', hcap, hdb1⟩ := enroll_student_ok_inv db bid sid db1 hok
    have hbatches : db1.batches = rosterAdd bid sid db.batches := by rw [hdb1]
    have hprofiles : db1.student_profiles = profileEnroll bid b'.course_id sid db.student_profiles := by
      rw [hdb1]
    have hbb : b' = b := by
      rw [hfind] at hfind'
      exact (Option.some_inj.mp hfind').symm
    subst hbb
    constructor
    · intro b1 h1
      rw [hbatches, rosterAdd_find? bid sid db.batches b' hfind, Option.some_inj] at h1
      rw [← h1]
      exact addToSet_mem _ _
    · intro p1 h1
      rw [hprofiles, profileEnroll_find?, hfindp] at h1
      simp only [Option.map_some', Option.some_inj] at h1
      rw [← h1]
      exact ⟨rfl, addToSet_mem _ _, fun hnd => addToSet_nodup _ hnd⟩
  · intro db bid sid tf d n now fid db1 b hok hfind
    obtain ⟨b', hfind', hcap, hmem, hbatches, hprofiles, _, _⟩ :=
      enroll_with_fees_ok_inv db bid sid tf d n now fid db1 hok
    have hbb : b' = b := by
      rw [hfind] at hfind'
      exact (Option.some_inj.mp hfind').symm
    subst hbb
    refine ⟨?_, ?_, ?_⟩
    · intro b1 h1
      rw [hbatches, rosterAdd_find? bid sid db.batches b' hfind, Option.some_inj] at h1
      rw [← h1]
      exact addToSet_mem _ _
    · rw [hprofiles, upsertProfile_find?]
      cases hf : db.student_profiles.find? (fun x => x.user_id == sid) with
      | some p => exact ⟨_, rfl⟩
      | none => exact ⟨_, rfl⟩
    · intro p1 h1
      rw [hprofiles, upsertProfile_find?] at h1
      cases hf : db.student_profiles.find? (fun x => x.user_id == sid) with
      | some p =>
        rw [hf] at h1
        simp only [Option.some_inj] at h1
        rw [← h1]
        exact ⟨rfl, addToSet_mem _ _⟩
      | none =>
        rw [hf] at h1
        simp only [Option.some_inj] at h1
        rw [← h1]
        exact ⟨rfl, by simp⟩
  · intro db bid students fids feeids now r hok
    obtain ⟨b, hfind, hr⟩ := bulk_enroll_ok_inv db bid students fids feeids now r hok
    rw [hr]
    exact bulkEnrollLoop_profiles b bid fids feeids now students 0 db 0 []

/-- Batch for the C8 witness. -/
def batchW8 : Batch :=
  { id := "b1", course_id := "c1", batch_name := "Evening", teacher_id := "t1",
    max_students := 5, enrolled_students := [], status := "ongoing" }

/-- Profile for the C8 witness. -/
def profW8 : StudentProfile :=
  { user_id := "s1", enrolled_courses := [], batch_id := none, status := "active" }

/-- Database for the C8 witness. -/
def dbW8 : DB :=
  { users := [], batches := [batchW8], student_profiles := [profW8],
    fee_structures := [], fee_payments := [] }

/-- State after `enroll_student dbW8 "b1" "s1"`. -/
def dbW8after : DB :=
  { users := [],
    batches := [{ batchW8 with enrolled_students := ["s1"] }],
    student_profiles := [{ user_id := "s1", enrolled_courses := ["c1"], batch_id := some "b1", status := "active" }],
    fee_structures := [], fee_payments := [] }

theorem enroll_effects_amended_witness :
    ({ user_id := "s1", enrolled_courses := ["c1"], batch_id := some "b1", status := "active" } : StudentProfile).batch_id = some "b1" ∧
    "c1" ∈ ({ user_id := "s1", enrolled_courses := ["c1"], batch_id := some "b1", status := "active" } : StudentProfile).enrolled_courses := by
  have h := (enroll_effects_amended.1 dbW8 "b1" "s1" dbW8after batchW8 profW8
    (by rfl) (by decide) (by decide)).2
    { user_id := "s1", enrolled_courses := ["c1"], batch_id := some "b1", status := "active" }
    (by decide)
  exact ⟨h.1, h.2.1⟩

/-- Claim C2 (code bug, failing input `total_fee = 100`, `discount = 0`,
`installment_count = 3`): the source performs naive equal division —
every installment, INCLUDING the last, gets exactly
`pending / installments`; there is no remainder-absorption step on the
last installment anywhere in the code.  In this exact-rational embedding
the three amounts are all `100/3` (and only therefore does the sum come
out to 100); in the source the amounts are IEEE-754 doubles, where
`100/3` rounds to `33.333333333333336` and the three installments sum to
`100.00000000000001`, not `100` — the exactness the claim promises is
lost precisely because no installment absorbs the rounding remainder. -/
theorem installments_no_remainder_absorption :
    (mkInstallments (100 - 0) 3 0).map (fun i => i.amount) = [100 / 3, 100 / 3, 100 / 3] := by
  show ((List.range 3).map _).map _ = _
  norm_num [mkInstallments, List.range_succ]

/-- The batch roster invariant of the specification: no duplicate
student ids, and the roster size bounded by the capacity. -/
def BatchWF (b : Batch) : Prop :=
  b.enrolled_students.Nodup ∧ b.enrolled_students.length ≤ b.max_students

/-- The bulk-enroll loop preserves roster duplicate-freeness (every
roster write goes through `$addToSet`), although it checks no capacity. -/
theorem bulkEnrollLoop_nodup (snapshot : Batch) (bid : String)
    (fids feeids : List String) (now : Nat) :
    ∀ (students : List BulkStudentData) (idx : Nat) (db : DB) (cnt : Nat)
      (errs : List BulkError),
      (∀ b ∈ db.batches, b.enrolled_students.Nodup) →
      ∀ b ∈ (bulkEnrollLoop snapshot bid fids feeids now students idx db cnt errs).db.batches,
        b.enrolled_students.Nodup := by
  intro students
  induction students with
  | nil => intro idx db cnt errs h; exact h
  | cons sd rest ih =>
    intro idx db cnt errs h
    unfold bulkEnrollLoop
    cases hu : db.users.find? (fun u => u.email == sd.email) with
    | some u =>
      dsimp only
      by_cases hm : u.id ∈ snapshot.enrolled_students
      · rw [if_pos hm]
        exact ih _ _ _ _ h
      · rw [if_neg hm]
        have hadd : ∀ b ∈ updateFirst (fun x : Batch => x.id == bid)
            (fun b => { b with enrolled_students := addToSet b.enrolled_students u.id })
            db.batches, b.enrolled_students.Nodup :=
          updateFirst_forall (fun x : Batch => x.id == bid)
            (fun b => { b with enrolled_students := addToSet b.enrolled_students u.id })
            (fun x hx => addToSet_nodup _ hx) db.batches h
        by_cases htf : sd.total_fee > 0
        · rw [if_pos htf]
          exact ih _ _ _ _ hadd
        · rw [if_neg htf]
          exact ih _ _ _ _ hadd
    | none =>
      dsimp only
      by_cases hm : fids.getD idx "fresh-user-id" ∈ snapshot.enrolled_students
      · rw [if_pos hm]
        exact ih _ _ _ _ h
      · rw [if_neg hm]
        have hadd : ∀ b ∈ updateFirst (fun x : Batch => x.id == bid)
            (fun b => { b with enrolled_students := addToSet b.enrolled_students (fids.getD idx "fresh-user-id") })
            db.batches, b.enrolled_students.Nodup :=
          updateFirst_forall (fun x : Batch => x.id == bid)
            (fun b => { b with enrolled_students := addToSet b.enrolled_students (fids.getD idx "fresh-user-id") })
            (fun x hx => addToSet_nodup _ hx) db.batches h
        by_cases htf : sd.total_fee > 0
        · rw [if_pos htf]
          exact ih _ _ _ _ hadd
        · rw [if_neg htf]
          exact ih _ _ _ _ hadd

/-- Database for the C3 counterexample: one batch with capacity 1 and an
empty roster. -/
def dbX3 : DB :=
  { users := [],
    batches := [{ id := "b1", course_id := "c1", batch_name := "Tiny", teacher_id := "t1", max_students := 1, enrolled_students := [], status := "ongoing" }],
    student_profiles := [], fee_structures := [], fee_payments := [] }

/-- First bulk row for the C3 counterexample. -/
def sdX3a : BulkStudentData :=
  { name := "A", email := "e1", phone := "", total_fee := 0, discount := 0 }

/-- Second bulk row for the C3 counterexample. -/
def sdX3b : BulkStudentData :=
  { name := "B", email := "e2", phone := "", total_fee := 0, discount := 0 }

/-- Claim C3 counterexample: `bulk_enroll_students` has no capacity
check, so one bulk call on a capacity-1 batch enrolls two students:
the roster ends as `["u1", "u2"]` (length 2) while `max_students = 1`,
violating the size half of the batch invariant. -/
theorem bulk_exceeds_capacity_cex :
    (bulk_enroll_students dbX3 "b1" [sdX3a, sdX3b] ["u1", "u2"] [] 0).map
      (fun r => r.db.batches.map (fun b => (b.enrolled_students, b.max_students))) =
      .ok [((["u1", "u2"] : List String), 1)] ∧ ¬ ((2 : Nat) ≤ 1) := by
  decide

/-- Claim C3 (amended): a student id appears at most once in a roster
after ANY of the mutating operations (they all write through `$addToSet`
or `$pull`), and the single-enroll operations and `RemoveStudent`
preserve the full invariant `|roster| <= max_students`; but
`bulk_enroll_students` checks no capacity, so it preserves only
duplicate-freeness and can push a roster past `max_students`. -/
theorem batch_invariants_amended :
    (∀ db bid sid db1,
      (∀ b ∈ db.batches, BatchWF b) → enroll_student db bid sid = .ok db1 →
      ∀ b ∈ db1.batches, BatchWF b) ∧
    (∀ db bid sid db1,
      (∀ b ∈ db.batches, BatchWF b) → enroll_student_in_batch db bid sid = .ok db1 →
      ∀ b ∈ db1.batches, BatchWF b) ∧
    (∀ db bid sid tf d n now fid db1,
      (∀ b ∈ db.batches, BatchWF b) →
      enroll_student_with_fees db bid sid tf d n now fid = .ok db1 →
      ∀ b ∈ db1.batches, BatchWF b) ∧
    (∀ db bid sid,
      (∀ b ∈ db.batches, BatchWF b) →
      ∀ b ∈ (remove_student_from_batch db bid sid).batches, BatchWF b) ∧
    (∀ db bid students fids feeids now r,
      (∀ b ∈ db.batches, b.enrolled_students.Nodup) →
      bulk_enroll_students db bid students fids feeids now = .ok r →
      ∀ b ∈ r.db.batches, b.enrolled_students.Nodup) := by
  have part1 : ∀ db bid sid db1,
      (∀ b ∈ db.batches, BatchWF b) → enroll_student db bid sid = .ok db1 →
      ∀ b ∈ db1.batches, BatchWF b := by
    intro db bid sid db1 hwf hok
    obtain ⟨b, hfind, hcap, hdb1⟩ := enroll_student_ok_inv db bid sid db1 hok
    have hbatches : db1.batches = rosterAdd bid sid db.batches := by rw [hdb1]
    rw [hbatches]
    refine updateFirst_forall_of_find? (fun x : Batch => x.id == bid)
      (fun b => { b with enrolled_students := addToSet b.enrolled_students sid })
      db.batches b hfind hwf ?_
    obtain ⟨hnd, hle⟩ := hwf b (List.mem_of_find?_eq_some hfind)
    refine ⟨addToSet_nodup _ hnd, ?_⟩
    exact le_trans (addToSet_length_le _ _) hcap
  refine ⟨part1, ?_, ?_, ?_, ?_⟩
  · intro db bid sid db1 hwf hok
    rw [enroll_student_in_batch_eq] at hok
    exact part1 db bid sid db1 hwf hok
  · intro db bid sid tf d n now fid db1 hwf hok
    obtain ⟨b, hfind, hcap, hmem, hbatches, _, _, _⟩ :=
      enroll_with_fees_ok_inv db bid sid tf d n now fid db1 hok
    rw [hbatches]
    refine updateFirst_forall_of_find? (fun x : Batch => x.id == bid)
      (fun b => { b with enrolled_students := addToSet b.enrolled_students sid })
      db.batches b hfind hwf ?_
    obtain ⟨hnd, hle⟩ := hwf b (List.mem_of_find?_eq_some hfind)
    refine ⟨addToSet_nodup _ hnd, ?_⟩
    exact le_trans (addToSet_length_le _ _) hcap
  · intro db bid sid hwf
    have hgoal : ∀ b ∈ updateFirst (fun x : Batch => x.id == bid)
        (fun b => { b with enrolled_students := b.enrolled_students.filter (fun s => s != sid) })
        db.batches, BatchWF b := by
      refine updateFirst_forall (fun x : Batch => x.id == bid)
        (fun b => { b with enrolled_students := b.enrolled_students.filter (fun s => s != sid) })
        ?_ db.batches hwf
      intro x hx
      exact ⟨hx.1.filter _, le_trans (List.length_filter_le _ _) hx.2⟩
    exact hgoal
  · intro db bid students fids feeids now r hnd hok
    obtain ⟨b, hfind, hr⟩ := bulk_enroll_ok_inv db bid students fids feeids now r hok
    rw [hr]
    exact bulkEnrollLoop_nodup b bid fids feeids now students 0 db 0 [] hnd

/-- Batch for the C3 witness. -/
def batchW3 : Batch :=
  { id := "b1", course_id := "c1", batch_name := "Evening", teacher_id := "t1",
    max_students := 2, enrolled_students := [], status := "ongoing" }

/-- Database for the C3 witness. -/
def dbW3 : DB :=
  { users := [], batches := [batchW3], student_profiles := [],
    fee_structures := [], fee_payments := [] }

/-- State after `enroll_student dbW3 "b1" "s1"` (no profile exists, so
only the roster changes). -/
def dbW3after : DB :=
  { users := [], batches := [{ batchW3 with enrolled_students := ["s1"] }],
    student_profiles := [], fee_structures := [], fee_payments := [] }

theorem batch_invariants_amended_witness :
    BatchWF { batchW3 with enrolled_students := ["s1"] } := by
  have h := batch_invariants_amended.1 dbW3 "b1" "s1" dbW3after ?_ (by rfl)
  · exact h _ (by decide)
  · intro b hb
    have hb1 : b ∈ [batchW3] := hb
    rw [List.mem_singleton] at hb1
    subst hb1
    exact ⟨by decide, by decide⟩

/-- Claim C10: `RemoveStudent` is idempotent — the second application is
a no-op on the whole state, with no error (the handler has no error
path at all): after one (or two) calls the student is absent from the
batch roster and the profile `batch_id` is null; the enrolled-courses
sets of all profiles and the whole fee ledger (`fee_structures` and
`fee_payments`) are untouched. -/
theorem removeStudent_idempotent (db : DB) (bid sid : String) :
    remove_student_from_batch (remove_student_from_batch db bid sid) bid sid =
      remove_student_from_batch db bid sid ∧
    (∀ b, (remove_student_from_batch db bid sid).batches.find? (fun x => x.id == bid) = some b →
      sid ∉ b.enrolled_students) ∧
    (∀ p, (remove_student_from_batch db bid sid).student_profiles.find? (fun x => x.user_id == sid) = some p →
      p.batch_id = none) ∧
    (remove_student_from_batch db bid sid).student_profiles.map (fun p => p.enrolled_courses) =
      db.student_profiles.map (fun p => p.enrolled_courses) ∧
    (remove_student_from_batch db bid sid).fee_structures = db.fee_structures ∧
    (remove_student_from_batch db bid sid).fee_payments = db.fee_payments := by
  refine ⟨?_, ?_, ?_, ?_, rfl, rfl⟩
  · unfold remove_student_from_batch
    dsimp only
    rw [updateFirst_idem (fun b : Batch => b.id == bid)
        (fun b => { b with enrolled_students := b.enrolled_students.filter (fun s => s != sid) })
        (fun x => rfl) (fun x => by simp [List.filter_filter]) db.batches,
      updateFirst_idem (fun p : StudentProfile => p.user_id == sid)
        (fun p => { p with batch_id := none }) (fun x => rfl) (fun x => rfl) db.student_profiles]
  · intro b hb
    have hb2 : (updateFirst (fun b : Batch => b.id == bid)
        (fun b => { b with enrolled_students := b.enrolled_students.filter (fun s => s != sid) })
        db.batches).find? (fun x => x.id == bid) = some b := hb
    rw [updateFirst_find? (fun x : Batch => x.id == bid)
        (fun b => { b with enrolled_students := b.enrolled_students.filter (fun s => s != sid) })
        (fun x => rfl) db.batches] at hb2
    cases hfind : db.batches.find? (fun x => x.id == bid) with
    | none => rw [hfind] at hb2; exact absurd hb2 (by simp)
    | some b0 =>
      rw [hfind] at hb2
      simp only [Option.map_some', Option.some_inj] at hb2
      rw [← hb2]
      simp [List.mem_filter]
  · intro p hp
    have hp2 : (updateFirst (fun p : StudentProfile => p.user_id == sid)
        (fun p => { p with batch_id := none })
        db.student_profiles).find? (fun x => x.user_id == sid) = some p := hp
    rw [updateFirst_find? (fun x : StudentProfile => x.user_id == sid)
        (fun p => { p with batch_id := none })
        (fun x => rfl) db.student_profiles] at hp2
    cases hfind : db.student_profiles.find? (fun x => x.user_id == sid) with
    | none => rw [hfind] at hp2; exact absurd hp2 (by simp)
    | some p0 =>
      rw [hfind] at hp2
      simp only [Option.map_some', Option.some_inj] at hp2
      rw [← hp2]
  · exact updateFirst_map (fun p : StudentProfile => p.user_id == sid)
      (fun p => { p with batch_id := none })
      (fun p => p.enrolled_courses) (fun x => rfl) db.student_profiles

/-- Database for the C10 witness: a batch containing the student, the
student profile pointing at the batch, and a fee structure that must
survive removal. -/
def dbW10 : DB :=
  { users := [],
    batches := [{ id := "b1", course_id := "c1", batch_name := "Morning", teacher_id := "t1", max_students := 5, enrolled_students := ["s1", "s2"], status := "ongoing" }],
    student_profiles := [{ user_id := "s1", enrolled_courses := ["c1"], batch_id := some "b1", status := "active" }],
    fee_structures := [],
    fee_payments := [] }

theorem removeStudent_idempotent_witness :
    remove_student_from_batch (remove_student_from_batch dbW10 "b1" "s1") "b1" "s1" =
      remove_student_from_batch dbW10 "b1" "s1" :=
  (removeStudent_idempotent dbW10 "b1" "s1").1

/-- Fee structure for the C1 witness. -/
def feeW1 : FeeStructure :=
  { id := "fs1", student_id := "s1", course_id := "c1", batch_id := "b1",
    total_fee := 120, paid_amount := 20, pending_amount := 100,
    installments := [], discount_applied := 0 }

/-- Database for the C1 witness. -/
def dbW1 : DB :=
  { users := [], batches := [], student_profiles := [],
    fee_structures := [feeW1], fee_payments := [] }

/-- The state produced by paying 40 against `feeW1` in `dbW1`. -/
def dbW1after : DB :=
  { users := [], batches := [], student_profiles := [],
    fee_structures := [{ feeW1 with paid_amount := feeW1.paid_amount + 40, pending_amount := max 0 (feeW1.pending_amount - 40) }],
    fee_payments := [{ id := "p1", fee_structure_id := "fs1", student_id := "s1", amount := 40, payment_method := "cash", transaction_id := none, installment_number := 1, receipt_number := "r1", notes := none }] }

theorem recordPayment_ledger_invariant_witness :
    FeeInv { feeW1 with paid_amount := feeW1.paid_amount + 40, pending_amount := max 0 (feeW1.pending_amount - 40) } := by
  have h := recordPayment_ledger_invariant dbW1 "fs1" 40 "cash" none none "p1" "r1"
    feeW1 dbW1after (by decide) (by rfl)
  refine h.2 (by norm_num [feeW1]) ?_ _ (List.mem_singleton.mpr rfl)
  intro f hf
  have hf1 : f ∈ [feeW1] := hf
  rw [List.mem_singleton] at hf1
  subst hf1
  exact ⟨by norm_num [feeW1], by norm_num [feeW1]⟩
